import Mathlib

/-!
Verification of the client-side task synchronization engine of the
todo-ai-app frontend, shallowly embedded from the TypeScript sources:
`src/frontend/src/App.tsx` (the synchronization engine),
`src/frontend/src/services/api.ts` and `src/unnamed/part_001`
(the remote gateway), `src/unnamed/part_002` / `part_003` / `part_004`
(the TaskList ordering function), `src/unnamed/part_005` (the
AddTaskForm), and `src/unnamed/part_006` (the Task wire types).

Timestamps: the wire carries ISO-8601 strings; the client code always
immediately parses them (`new Date(s).getTime()` in the sort comparator,
`new Date(s)` in the form).  We embed a parsed timestamp as an `Int`
(epoch milliseconds) where only the resulting instant matters
(`created_at`, `updated_at`), and as the structured `DateString` below
where the presence or absence of an explicit zone suffix matters
(`due_date`).

The file is organized as definitions first (data model, gateway,
engine handlers, form), then the theorems about them.
-/

namespace TodoApp

/-! ## Definitions -/

/-- Abstract ISO-8601 timestamp string.  `wall` is the wall-clock reading
encoded by the digits of the string (in minutes since the epoch, read in
the string's own frame); `zone` is the explicit UTC-offset suffix in
minutes (`some 0` for a trailing `Z`), or `none` for a naive string that
carries no `Z` and no `+hh:mm` / `-hh:mm` suffix. -/
structure DateString where
  wall : Int
  zone : Option Int
deriving Repr, DecidableEq

/-- JavaScript `new Date(s).getTime()` on an ISO-8601 string, as an epoch
reading in minutes.  `tzOffset` is the environment's
`Date.prototype.getTimezoneOffset()` value (UTC minus local, minutes):
a string with an explicit zone denotes the absolute instant it spells;
a naive date-time string is parsed as local time. -/
def jsParse (tzOffset : Int) (d : DateString) : Int :=
  match d.zone with
  | some z => d.wall - z
  | none => d.wall + tzOffset

/-- JavaScript `new Date(epoch).toISOString()`: an explicitly
zone-qualified UTC string reading off the given instant. -/
def toISO (epoch : Int) : DateString :=
  { wall := epoch, zone := some 0 }

/-- The `Task` wire shape (`src/unnamed/part_006`).  `created_at` and
`updated_at` are embedded as the parsed instants (the client only ever
uses them through `new Date(...).getTime()` and display formatting). -/
structure Task where
  id : Int
  title : String
  description : Option String
  completed : Bool
  due_date : Option DateString
  priority : Option String
  created_at : Int
  updated_at : Int
deriving Repr, DecidableEq

/-! ### Task ordering (TaskList, `src/unnamed/part_002`/`part_003`/`part_004`) -/

/-- The order induced by the `sortedTasks` comparator: `taskBefore a b`
holds exactly when the JavaScript comparator returns a non-positive
number on `(a, b)`, i.e. `a` may appear at or before `b`:
incomplete tasks come before completed ones, and within equal completion
status later `created_at` comes first. -/
def taskBefore (a b : Task) : Prop :=
  if a.completed = b.completed then b.created_at ≤ a.created_at
  else a.completed = false

instance : DecidableRel taskBefore := fun a b => by
  unfold taskBefore; infer_instance

instance : IsTotal Task taskBefore := by
  constructor
  intro a b
  unfold taskBefore
  by_cases h : a.completed = b.completed
  · simp [h]
    omega
  · cases ha : a.completed <;> cases hb : b.completed <;>
      simp_all

instance : IsTrans Task taskBefore := by
  constructor
  intro a b c hab hbc
  unfold taskBefore at *
  cases ha : a.completed <;> cases hb : b.completed <;> cases hc : c.completed <;>
    simp_all <;> omega

/-- `sortedTasks` from the TaskList component: a sorted copy of the task
array under the comparator (`[...tasks].sort(...)`), embedded as an
insertion sort by the comparator's order.  The JavaScript sort produces
some permutation of the input that is sorted for the comparator; every
property proved here uses only those two facts. -/
def sortedTasks (tasks : List Task) : List Task :=
  List.insertionSort taskBefore tasks

/-! ### Remote gateway (`src/unnamed/part_001`, `src/frontend/src/services/api.ts`) -/

/-- Health check response shape (`HealthStatus` in `src/unnamed/part_001`). -/
structure HealthStatus where
  status : String
  llm_service : String
deriving Repr, DecidableEq

/-- The outcome of one remote call as seen by the awaiting handler.
Axios rejects both on transport failure and on a non-success HTTP
status (the response interceptor re-throws), so both arrive as
`Except.error`; the payload records the error message and is never
inspected by the client beyond logging. -/
def ApiResult (α : Type) : Type := Except String α

/-- `ApiService.checkHealth` (`src/unnamed/part_001`, lines 133-142):
awaits `GET /health` and catches every failure, returning the degraded
value instead.  Being a total function into `HealthStatus` (not into
`ApiResult HealthStatus`), it never raises to its caller. -/
def ApiService.checkHealth (transport : ApiResult HealthStatus) : HealthStatus :=
  match transport with
  | .ok h => h
  | .error _ => { status := "error", llm_service := "unavailable" }

/-- The availability indicator the app derives from a health response:
`health.llm_service === 'available'` (`src/frontend/src/App.tsx`, line 42). -/
def healthAvailable (h : HealthStatus) : Bool :=
  h.llm_service == "available"

/-! ### Synchronization engine state (`src/frontend/src/App.tsx`, lines 16-31) -/

/-- The client session state held by the `App` component. -/
structure AppState where
  tasks : List Task
  isLoading : Bool
  error : Option String
  editingTask : Option Task
  isProcessingNL : Bool
  showAddForm : Bool
  isLLMAvailable : Bool
deriving Repr, DecidableEq

/-- Error message set by a failed manual create (`App.tsx`, line 87). -/
def createErrorMsg : String := "Failed to create task. Please try again."

/-- Error message set by a failed natural-language create (`App.tsx`, line 104). -/
def nlErrorMsg : String :=
  "The AI failed to understand. Please try rephrasing or add the task manually."

/-- Error message set by a failed toggle or edit-save (`App.tsx`, lines 124, 174). -/
def updateErrorMsg : String := "Failed to update task. Please try again."

/-- Error message set by a failed delete (`App.tsx`, line 145). -/
def deleteErrorMsg : String := "Failed to delete task. Please try again."

/-- Error message set by a failed initial load (`App.tsx`, line 60). -/
def loadErrorMsg : String :=
  "Failed to load tasks. Please check your connection and try again."

/-! ### Intent handlers (`src/frontend/src/App.tsx`).

Each handler clears or sets state around a single awaited gateway call;
the call's resolution is passed in as an `ApiResult`.  The handlers are
written exactly after the TypeScript control flow: the state updates
before the `await` are applied first, then the success or catch branch,
then any `finally` block. -/

/-- `handleCreateTask` (`App.tsx`, lines 80-90). -/
def handleCreateTask (s : AppState) (result : ApiResult Task) : AppState :=
  let s1 := { s with error := none }
  match result with
  | .ok newTask => { s1 with tasks := newTask :: s1.tasks, showAddForm := false }
  | .error _ => { s1 with error := some createErrorMsg }

/-- The state visible between `setIsProcessingNL(true); setError(null)` and
the awaited `createTaskFromNaturalLanguage` call (`App.tsx`, lines 98-99). -/
def nlCreatePre (s : AppState) : AppState :=
  { s with isProcessingNL := true, error := none }

/-- `handleNaturalLanguageCreate` (`App.tsx`, lines 97-109): try/catch
with a `finally` that clears the NL loading flag. -/
def handleNaturalLanguageCreate (s : AppState) (result : ApiResult Task) : AppState :=
  let s1 := nlCreatePre s
  let s2 :=
    match result with
    | .ok newTask => { s1 with tasks := newTask :: s1.tasks }
    | .error _ => { s1 with error := some nlErrorMsg }
  { s2 with isProcessingNL := false }

/-- `handleToggleTask` (`App.tsx`, lines 115-128): looks the task up by id
and returns at once when it is absent (no remote call); otherwise awaits
`updateTask` and reconciles. -/
def handleToggleTask (s : AppState) (id : Int) (result : ApiResult Task) : AppState :=
  match s.tasks.find? (fun t => t.id == id) with
  | none => s
  | some _ =>
    let s1 := { s with error := none }
    match result with
    | .ok updatedTask =>
      { s1 with tasks := s1.tasks.map (fun t => if t.id = id then updatedTask else t) }
    | .error _ => { s1 with error := some updateErrorMsg }

/-- `handleDeleteTask` (`App.tsx`, lines 134-148): the `window.confirm`
step is the `confirmed` flag; when declined, nothing happens and no
remote call is made. -/
def handleDeleteTask (s : AppState) (id : Int) (confirmed : Bool)
    (result : ApiResult Unit) : AppState :=
  if !confirmed then s
  else
    let s1 := { s with error := none }
    match result with
    | .ok _ => { s1 with tasks := s1.tasks.filter (fun t => t.id != id) }
    | .error _ => { s1 with error := some deleteErrorMsg }

/-- `handleEditTask` (`App.tsx`, lines 154-157): stores the Task object
passed by the list row and opens the form. -/
def handleEditTask (s : AppState) (task : Task) : AppState :=
  { s with editingTask := some task, showAddForm := true }

/-- `handleUpdateTask` (`App.tsx`, lines 163-177): returns at once when no
edit target is set; otherwise awaits `updateTask(editingTask.id, ...)`
and reconciles. -/
def handleUpdateTask (s : AppState) (result : ApiResult Task) : AppState :=
  match s.editingTask with
  | none => s
  | some editing =>
    let s1 := { s with error := none }
    match result with
    | .ok updatedTask =>
      { s1 with
          tasks := s1.tasks.map (fun t => if t.id = editing.id then updatedTask else t),
          editingTask := none, showAddForm := false }
    | .error _ => { s1 with error := some updateErrorMsg }

/-- `handleCancelEdit` (`App.tsx`, lines 182-185). -/
def handleCancelEdit (s : AppState) : AppState :=
  { s with editingTask := none, showAddForm := false }

/-! ### Mount-time effects (`src/frontend/src/App.tsx`, lines 67-71) -/

/-- The remote operations the App component can issue outside the intent
handlers. -/
inductive ApiOp where
  | loadTasks
  | checkHealth
deriving Repr, DecidableEq

/-- The sequence of gateway operations issued by the mount effect
(`App.tsx`, lines 67-71), the only non-intent call site.  Its
dependencies — the two `useCallback([])` handlers — are stable, so the
effect body runs exactly once for the session, calling `loadTasks()`
then `checkHealth()`; no `setInterval`, `setTimeout` or any other
re-triggering of the probe exists anywhere in the sources. -/
def mountEffectOps : List ApiOp := [ApiOp.loadTasks, ApiOp.checkHealth]

/-- How many health probes a session issues outside the intent handlers:
the probes of the one run of the mount effect.  No other code schedules
or repeats the probe. -/
def sessionHealthProbeCount : Nat :=
  mountEffectOps.count ApiOp.checkHealth

/-! ### TaskItem display formatting (`src/frontend/src/components/TaskItem.tsx`) -/

/-- `formatDate` in TaskItem (`TaskItem.tsx`, lines 16-20 and the
documented variant at lines 118-129): renders a stored timestamp for
display via `new Date(dateString).toLocaleString()` — a plain parse
with no zone normalization (unlike the edit form's `formatForInput`),
followed by a local-time rendering.  The rendering is embedded as the
naive local wall-clock reading of the parsed instant; an absent
due date (`none`) renders nothing. -/
def formatDate (tzOffset : Int) (d : Option DateString) : Option DateString :=
  match d with
  | none => none
  | some ds => some { wall := jsParse tzOffset ds - tzOffset, zone := none }

/-! ### AddTaskForm (`src/unnamed/part_005`) -/

/-- The zone-normalization step of `formatForInput` (`part_005`, lines
40-43): a string whose suffix test finds no `Z` and no `+hh:mm`/`-hh:mm`
offset gets a `Z` appended, so it is parsed as UTC; a string that
already carries zone information is kept as is. -/
def ensureUTC (d : DateString) : DateString :=
  match d.zone with
  | some _ => d
  | none => { d with zone := some 0 }

/-- `formatForInput` (`part_005`, lines 32-57): converts a stored
timestamp to the naive local wall-clock string a `datetime-local` input
needs.  The empty input (`''`, embedded as `none`) stays empty; the
string is zone-normalized via `ensureUTC`, parsed, shifted by
`getTimezoneOffset()`, and the trailing `Z` of `toISOString()` is cut by
`slice(0, 16)`, leaving a naive string. -/
def formatForInput (tzOffset : Int) (d : Option DateString) : Option DateString :=
  match d with
  | none => none
  | some ds =>
    let epoch := jsParse tzOffset (ensureUTC ds)
    some { wall := epoch - tzOffset, zone := none }

/-- The due-date conversion in `handleSubmit` (`part_005`, line 106):
`new Date(task.due_date).toISOString()` — parse the naive local string
as local time and emit the zone-qualified UTC instant. -/
def submitDueDate (tzOffset : Int) (d : DateString) : DateString :=
  toISO (jsParse tzOffset d)

/-- The AddTaskForm field state (`part_005`, lines 60-65).  `due_date`
is the `datetime-local` value, `none` embedding the empty string. -/
structure TaskForm where
  title : String
  description : String
  due_date : Option DateString
  priority : String
deriving Repr, DecidableEq

/-- The initial form state (`part_005`, lines 60-65): empty fields with
priority "medium". -/
def initialForm : TaskForm :=
  { title := "", description := "", due_date := none, priority := "medium" }

/-- JavaScript `s || dflt` for an optional string field: `undefined`
and the empty string are falsy and yield the default. -/
def jsOr (s : Option String) (dflt : String) : String :=
  match s with
  | none => dflt
  | some v => if v = "" then dflt else v

/-- The edit-mode population effect (`part_005`, lines 68-77): fills the
form from the task being edited; `initialData.title || ''` is the
identity on a string title, the optional fields default through `||`,
and an absent or empty priority becomes "medium". -/
def populateForEdit (tzOffset : Int) (initialData : Task) : TaskForm :=
  { title := initialData.title,
    description := jsOr initialData.description "",
    due_date := formatForInput tzOffset initialData.due_date,
    priority := jsOr initialData.priority "medium" }

/-- The options offered by the priority `<select>` (`part_005`, lines
195-199); `handleChange` can only store one of these into `priority`. -/
def priorityOptions : List String := ["low", "medium", "high"]

/-- Leading and trailing whitespace removal on a character list. -/
def trimChars (l : List Char) : List Char :=
  ((l.dropWhile Char.isWhitespace).reverse.dropWhile Char.isWhitespace).reverse

/-- JavaScript `String.prototype.trim()`, embedded over the string's
character list (kernel-reducible, unlike the byte-position-based library
trim): strips leading and trailing whitespace. -/
def jsTrim (s : String) : String := String.mk (trimChars s.data)

/-- The payload `handleSubmit` passes to `onSubmit` (`part_005`, lines
108-114): trimmed title, trimmed-or-absent description, converted
due date, priority-or-absent. -/
structure SubmittedDraft where
  title : String
  description : Option String
  due_date : Option DateString
  priority : Option String
deriving Repr, DecidableEq

/-- `handleSubmit` (`part_005`, lines 94-124): validates the trimmed
title first and returns without calling `onSubmit` when it is empty
(embedded as `none`); otherwise builds the draft passed to `onSubmit`. -/
def handleSubmit (tzOffset : Int) (f : TaskForm) : Option SubmittedDraft :=
  if jsTrim f.title = "" then none
  else
    some
      { title := jsTrim f.title,
        description :=
          if jsTrim f.description = "" then none else some (jsTrim f.description),
        due_date := f.due_date.map (submitDueDate tzOffset),
        priority := if f.priority = "" then none else some f.priority }

/-- The composition of a manual form submission with the engine's create
handler: the remote call (`remote`) is only consulted when `handleSubmit`
actually produced a draft — validation happens before any network
request is issued. -/
def submitCreate (tzOffset : Int) (s : AppState) (f : TaskForm)
    (remote : SubmittedDraft → ApiResult Task) : AppState :=
  match handleSubmit tzOffset f with
  | none => s
  | some draft => handleCreateTask s (remote draft)

/-- The form states reachable in a session, one constructor per way the
code writes the form state: the initial `useState` value, the edit-mode
population effect, and `handleChange` on each field — the priority field
only ever receiving one of the `<select>` options. -/
inductive FormReachable (tzOffset : Int) : TaskForm → Prop where
  | init : FormReachable tzOffset initialForm
  | populate (t : Task) : FormReachable tzOffset (populateForEdit tzOffset t)
  | changeTitle (f : TaskForm) (v : String) :
      FormReachable tzOffset f → FormReachable tzOffset { f with title := v }
  | changeDescription (f : TaskForm) (v : String) :
      FormReachable tzOffset f → FormReachable tzOffset { f with description := v }
  | changeDueDate (f : TaskForm) (v : Option DateString) :
      FormReachable tzOffset f → FormReachable tzOffset { f with due_date := v }
  | changePriority (f : TaskForm) (v : String) :
      v ∈ priorityOptions → FormReachable tzOffset f →
      FormReachable tzOffset { f with priority := v }

/-! ### Concrete states for the witnesses and counterexamples -/

/-- A small concrete task used by the witnesses: one incomplete task
with id 1. -/
def demoTask : Task :=
  { id := 1, title := "write report", description := none, completed := false,
    due_date := none, priority := some "medium", created_at := 100, updated_at := 100 }

/-- A second task, kept untouched by operations aimed at id 1. -/
def demoTask2 : Task :=
  { id := 2, title := "buy milk", description := none, completed := true,
    due_date := none, priority := none, created_at := 50, updated_at := 60 }

/-- The server's reply to toggling `demoTask`. -/
def demoTaskToggled : Task :=
  { demoTask with completed := true, updated_at := 120 }

/-- Concrete session state holding `demoTask` and `demoTask2`, with
`demoTask` as the current edit target. -/
def demoState : AppState :=
  { tasks := [demoTask, demoTask2], isLoading := false, error := none,
    editingTask := some demoTask, isProcessingNL := false,
    showAddForm := true, isLLMAvailable := true }

/-- Session state before the C7 scenario: `demoTask` is in the collection
and nothing is being edited yet. -/
def c7Start : AppState :=
  { tasks := [demoTask, demoTask2], isLoading := false, error := none,
    editingTask := none, isProcessingNL := false,
    showAddForm := false, isLLMAvailable := true }

/-- The state after beginning an edit of `demoTask` and then having a
completion toggle of the same task succeed with the server's newer
object `demoTaskToggled`. -/
def c7End : AppState :=
  handleToggleTask (handleEditTask c7Start demoTask) 1 (.ok demoTaskToggled)

/-- A form whose title is whitespace only. -/
def wsForm : TaskForm :=
  { title := "   ", description := "details", due_date := none,
    priority := "medium" }

/-- A remote create endpoint for the witnesses; it would reject the
call, but the C4 theorem shows it is never consulted. -/
def demoRemote : SubmittedDraft → ApiResult Task :=
  fun _ => .error "network down"

/-! ## Theorems -/

/-! ### Claim C1 -/

/-- C1: for every task collection, the display ordering places every
incomplete task before every completed task and, within each completion
group, orders tasks by creation timestamp descending, so creation
timestamps are non-increasing within each group; the displayed list is a
permutation of the collection. -/
theorem sortedTasks_ordering (l : List Task) :
    List.Pairwise
      (fun a b =>
        (a.completed = true → b.completed = true) ∧
        (a.completed = b.completed → b.created_at ≤ a.created_at))
      (sortedTasks l) ∧
    (sortedTasks l).Perm l := by
  constructor
  · refine List.Pairwise.imp ?_ (List.sorted_insertionSort taskBefore l)
    intro a b hab
    unfold taskBefore at hab
    by_cases h : a.completed = b.completed
    · simp [h] at hab ⊢
      exact hab
    · simp [h] at hab
      constructor
      · intro ha
        rw [hab] at ha
        cases ha
      · intro h'
        exact absurd h' h
  · exact List.perm_insertionSort taskBefore l

/-! ### Claim C2 -/

/-- C2: a failed create, update (including completion toggle), or delete
leaves the task collection element-for-element unchanged; the handler
only sets the error message of its intent class. -/
theorem failed_mutation_preserves_tasks (s : AppState) (e : String) (id : Int)
    (hfind : (s.tasks.find? (fun t => t.id == id)).isSome = true)
    (hedit : s.editingTask.isSome = true) :
    (handleCreateTask s (.error e)).tasks = s.tasks ∧
    (handleNaturalLanguageCreate s (.error e)).tasks = s.tasks ∧
    (handleToggleTask s id (.error e)).tasks = s.tasks ∧
    (handleUpdateTask s (.error e)).tasks = s.tasks ∧
    (handleDeleteTask s id true (.error e)).tasks = s.tasks ∧
    (handleCreateTask s (.error e)).error = some createErrorMsg ∧
    (handleNaturalLanguageCreate s (.error e)).error = some nlErrorMsg ∧
    (handleToggleTask s id (.error e)).error = some updateErrorMsg ∧
    (handleUpdateTask s (.error e)).error = some updateErrorMsg ∧
    (handleDeleteTask s id true (.error e)).error = some deleteErrorMsg := by
  obtain ⟨v, hv⟩ := Option.isSome_iff_exists.mp hfind
  obtain ⟨et, het⟩ := Option.isSome_iff_exists.mp hedit
  simp [handleCreateTask, handleNaturalLanguageCreate, nlCreatePre,
    handleToggleTask, handleUpdateTask, handleDeleteTask, hv, het]

/-- Witness for C2 at the concrete state `demoState`. -/
theorem failed_mutation_preserves_tasks_witness :
    (demoState.tasks.find? (fun t => t.id == 1)).isSome = true ∧
    demoState.editingTask.isSome = true ∧
    (handleCreateTask demoState (.error "network down")).tasks = demoState.tasks ∧
    (handleDeleteTask demoState 1 true (.error "network down")).tasks = demoState.tasks :=
  ⟨by decide, by decide,
    (failed_mutation_preserves_tasks demoState "network down" 1
      (by decide) (by decide)).1,
    (failed_mutation_preserves_tasks demoState "network down" 1
      (by decide) (by decide)).2.2.2.2.1⟩

/-! ### Claim C3 -/

/-- C3: `checkHealth` resolves normally for every transport outcome (it
is a total function into `HealthStatus`, not into `ApiResult`); the
success value is passed through, and on any failure — transport failure
or non-success remote status, both of which reach the catch block as a
rejection — it resolves to the degraded result with status "error" and
the availability indicator reporting unavailable. -/
theorem checkHealth_never_raises (h : HealthStatus) (e : String) :
    ApiService.checkHealth (.ok h) = h ∧
    ApiService.checkHealth (.error e) =
      { status := "error", llm_service := "unavailable" } ∧
    (ApiService.checkHealth (.error e)).status = "error" ∧
    healthAvailable (ApiService.checkHealth (.error e)) = false := by
  exact ⟨rfl, rfl, rfl, rfl⟩

/-! ### Claim C5 -/

/-- C5: when `updateTask` resolves successfully (for a completion toggle
or an edit-save), the task with the matching id is replaced by exactly
the Task object returned by the server, and every other element of the
collection is the very same object as before (the handlers map the
identity over them). -/
theorem successful_update_replaces_matching (s : AppState) (id : Int)
    (u : Task) (et : Task)
    (hfind : (s.tasks.find? (fun t => t.id == id)).isSome = true)
    (hedit : s.editingTask = some et) :
    (handleToggleTask s id (.ok u)).tasks =
      s.tasks.map (fun t => if t.id = id then u else t) ∧
    (∀ t ∈ s.tasks, t.id ≠ id → t ∈ (handleToggleTask s id (.ok u)).tasks) ∧
    (∀ t ∈ s.tasks, t.id = id → u ∈ (handleToggleTask s id (.ok u)).tasks) ∧
    (handleUpdateTask s (.ok u)).tasks =
      s.tasks.map (fun t => if t.id = et.id then u else t) ∧
    (∀ t ∈ s.tasks, t.id ≠ et.id → t ∈ (handleUpdateTask s (.ok u)).tasks) := by
  obtain ⟨v, hv⟩ := Option.isSome_iff_exists.mp hfind
  have htog : (handleToggleTask s id (.ok u)).tasks =
      s.tasks.map (fun t => if t.id = id then u else t) := by
    simp [handleToggleTask, hv]
  have hupd : (handleUpdateTask s (.ok u)).tasks =
      s.tasks.map (fun t => if t.id = et.id then u else t) := by
    simp [handleUpdateTask, hedit]
  refine ⟨htog, ?_, ?_, hupd, ?_⟩
  · intro t ht hne
    rw [htog, List.mem_map]
    exact ⟨t, ht, if_neg hne⟩
  · intro t ht heq
    rw [htog, List.mem_map]
    exact ⟨t, ht, if_pos heq⟩
  · intro t ht hne
    rw [hupd, List.mem_map]
    exact ⟨t, ht, if_neg hne⟩

/-- Witness for C5: toggling task 1 of `demoState` to the server reply
`demoTaskToggled` replaces exactly that element. -/
theorem successful_update_replaces_matching_witness :
    (demoState.tasks.find? (fun t => t.id == 1)).isSome = true ∧
    demoState.editingTask = some demoTask ∧
    (handleToggleTask demoState 1 (.ok demoTaskToggled)).tasks =
      demoState.tasks.map (fun t => if t.id = 1 then demoTaskToggled else t) :=
  ⟨by decide, by decide,
    (successful_update_replaces_matching demoState 1 demoTaskToggled demoTask
      (by decide) (by decide)).1⟩

/-! ### Claim C6 -/

/-- C6: the natural-language create handler sets the NL loading flag and
clears the error before the remote call; on success it prepends the
returned task, on failure it sets the distinct AI-parsing-failure
message (different from every other intent class's message), and the
`finally` step clears the NL loading flag on both paths, so it is never
left true. -/
theorem nl_create_lifecycle (s : AppState) (t : Task) (e : String) :
    (nlCreatePre s).isProcessingNL = true ∧
    (nlCreatePre s).error = none ∧
    (handleNaturalLanguageCreate s (.ok t)).tasks = t :: s.tasks ∧
    (handleNaturalLanguageCreate s (.error e)).tasks = s.tasks ∧
    (handleNaturalLanguageCreate s (.error e)).error = some nlErrorMsg ∧
    nlErrorMsg ≠ createErrorMsg ∧
    nlErrorMsg ≠ updateErrorMsg ∧
    nlErrorMsg ≠ deleteErrorMsg ∧
    nlErrorMsg ≠ loadErrorMsg ∧
    (handleNaturalLanguageCreate s (.ok t)).isProcessingNL = false ∧
    (handleNaturalLanguageCreate s (.error e)).isProcessingNL = false := by
  refine ⟨rfl, rfl, rfl, rfl, rfl, ?_, ?_, ?_, ?_, rfl, rfl⟩ <;> decide

/-! ### Claim C7

The spec asserts the edit target is held "by id, not by a detached
copy, so edits always reflect the latest known server state".  In the
code, `editingTask` stores the full `Task` object handed to
`handleEditTask`, and no handler that replaces a task's entry in the
collection rewrites `editingTask`; so when a toggle succeeds while the
same task is being edited, the edit target keeps the stale snapshot. -/

/-- Counterexample to C7: task 1's entry in the collection has been
replaced by the newer server state `demoTaskToggled`, yet the edit
target still holds the detached snapshot `demoTask` — the edit does NOT
reflect the latest known server state of the task with that id. -/
theorem editingTask_stale_counterexample :
    c7End.tasks.find? (fun t => t.id == 1) = some demoTaskToggled ∧
    c7End.editingTask = some demoTask ∧
    c7End.editingTask ≠ some demoTaskToggled ∧
    demoTask ≠ demoTaskToggled := by
  refine ⟨by decide, by decide, by decide, by decide⟩

/-- C7 amended: the edit target is held as the full Task object captured
when editing began (a detached snapshot, not an id-indirection); begin-
edit stores exactly the object it is given, and a successful or failed
toggle that rewrites the collection leaves the edit target unchanged, so
the edit form keeps reflecting the snapshot from begin-edit rather than
the latest server state. -/
theorem editingTask_is_detached_snapshot (s : AppState) (t : Task)
    (id : Int) (r : ApiResult Task) :
    (handleEditTask s t).editingTask = some t ∧
    (handleToggleTask s id r).editingTask = s.editingTask ∧
    (handleCreateTask s r).editingTask = s.editingTask ∧
    (handleNaturalLanguageCreate s r).editingTask = s.editingTask := by
  refine ⟨rfl, ?_, ?_, ?_⟩
  · unfold handleToggleTask
    cases hf : s.tasks.find? (fun u => u.id == id) with
    | none => rfl
    | some v => cases r <;> rfl
  · cases r <;> rfl
  · cases r <;> rfl

/-! ### Claim C8

The spec asserts the service-availability flag is "refreshed by periodic
health probing".  In the code the only site issuing `checkHealth` is the
mount effect (`App.tsx`, lines 67-71), which runs once per session; see
`mountEffectOps`. -/

/-- Counterexample to C8: the health probe is NOT issued repeatedly over
the life of a session — the session issues it exactly once (at mount),
so the probe count never reaches two. -/
theorem health_probe_not_periodic : ¬ 2 ≤ sessionHealthProbeCount := by
  decide

/-- C8 amended: the availability flag is set by a health probe issued
exactly once, at session start (component mount), alongside the initial
task load; it is not refreshed afterwards. -/
theorem health_probe_once_at_mount :
    sessionHealthProbeCount = 1 ∧
    mountEffectOps = [ApiOp.loadTasks, ApiOp.checkHealth] := by
  exact ⟨rfl, rfl⟩

/-! ### Claims C4, C9, C10 (AddTaskForm) -/

/-- In every reachable form state the priority field is a non-empty
string. -/
theorem FormReachable.priority_ne_empty {tzOffset : Int} {f : TaskForm}
    (h : FormReachable tzOffset f) : f.priority ≠ "" := by
  induction h with
  | init => decide
  | populate t =>
    show jsOr t.priority "medium" ≠ ""
    unfold jsOr
    cases t.priority with
    | none => decide
    | some v =>
      by_cases hv : v = "" <;> simp [hv]
  | changeTitle f v _ ih => exact ih
  | changeDescription f v _ ih => exact ih
  | changeDueDate f v _ ih => exact ih
  | changePriority f v hv _ _ =>
    show v ≠ ""
    simp only [priorityOptions, List.mem_cons, List.not_mem_nil, or_false] at hv
    rcases hv with rfl | rfl | rfl <;> decide

/-- C4: a manual create submission whose title is empty or whitespace-
only after trimming produces no draft (so `onSubmit`, and with it the
remote create call, is never invoked) and leaves the session state — in
particular the task collection — unchanged. -/
theorem empty_title_no_remote_call (tzOffset : Int) (s : AppState)
    (f : TaskForm) (remote : SubmittedDraft → ApiResult Task)
    (h : jsTrim f.title = "") :
    handleSubmit tzOffset f = none ∧
    submitCreate tzOffset s f remote = s ∧
    (submitCreate tzOffset s f remote).tasks = s.tasks := by
  have h1 : handleSubmit tzOffset f = none := by simp [handleSubmit, h]
  refine ⟨h1, ?_, ?_⟩ <;> simp [submitCreate, h1]

/-- Witness for C4 at the whitespace-titled form `wsForm`. -/
theorem empty_title_no_remote_call_witness :
    jsTrim wsForm.title = "" ∧
    (handleSubmit 0 wsForm = none ∧
     submitCreate 0 demoState wsForm demoRemote = demoState ∧
     (submitCreate 0 demoState wsForm demoRemote).tasks = demoState.tasks) :=
  ⟨by decide, empty_title_no_remote_call 0 demoState wsForm demoRemote (by decide)⟩

/-! C9 asserts every zone-less stored timestamp is treated as UTC when
parsed "for display or editing".  The editing path (`formatForInput`)
does normalize; the display path (`formatDate` in TaskItem) does not:
it parses the string as-is, so a zone-less date-time string is read as
local time, and in any zone away from UTC its display differs from the
UTC treatment the claim requires. -/

/-- Counterexample to C9: in a zone with `getTimezoneOffset() = 300`
(UTC-5), the zone-less stored timestamp reading 1000 is displayed by
`formatDate` with its own wall-clock digits (parsed as local), while the
same reading with an explicit `Z` displays shifted to 700 — so the
display parse of a zone-less string is NOT its parse as UTC. -/
theorem display_naive_parsed_local_counterexample :
    formatDate 300 (some { wall := 1000, zone := none }) =
      some { wall := 1000, zone := none } ∧
    formatDate 300 (some { wall := 1000, zone := some 0 }) =
      some { wall := 700, zone := none } ∧
    formatDate 300 (some { wall := 1000, zone := none }) ≠
      formatDate 300 (some { wall := 1000, zone := some 0 }) ∧
    jsParse 300 { wall := 1000, zone := none } ≠
      jsParse 300 { wall := 1000, zone := some 0 } := by
  refine ⟨rfl, rfl, by decide, by decide⟩

/-- C9 amended: when parsing a stored timestamp for EDITING, every
zone-less string is treated as UTC (`formatForInput` normalizes before
parsing, and the normalized parse ignores the local zone), and every
due date submitted from the local-time form input is converted to a
zone-qualified UTC instant denoting exactly the local-time reading of
the input, independent of any reader's zone; but when parsing for
DISPLAY, `formatDate` applies no zone normalization: a zone-less stored
timestamp is parsed as local time and rendered with its stored
wall-clock digits unshifted, not treated as UTC. -/
theorem timestamps_edit_utc_display_local (tzOffset tzOther w : Int) (d : DateString) :
    ensureUTC { wall := w, zone := none } = { wall := w, zone := some 0 } ∧
    jsParse tzOffset (ensureUTC { wall := w, zone := none }) = w ∧
    formatForInput tzOffset (some { wall := w, zone := none }) =
      formatForInput tzOffset (some { wall := w, zone := some 0 }) ∧
    (submitDueDate tzOffset d).zone = some 0 ∧
    jsParse tzOther (submitDueDate tzOffset d) = jsParse tzOffset d ∧
    formatDate tzOffset (some { wall := w, zone := none }) =
      some { wall := w, zone := none } ∧
    formatDate tzOffset (some { wall := w, zone := some 0 }) =
      some { wall := w - tzOffset, zone := none } := by
  refine ⟨rfl, by simp [jsParse, ensureUTC], rfl, rfl, ?_, ?_, ?_⟩
  · simp [submitDueDate, toISO, jsParse]
  · simp [formatDate, jsParse]
  · simp [formatDate, jsParse]

/-- C10: the form's priority initializes to "medium"; opening a task
with an absent priority for editing fills in "medium"; the select offers
only low/medium/high; and in every reachable form state a submitted
draft carries the form's (non-absent) priority — a task created or
edited through this form never submits an unset priority. -/
theorem form_priority_always_set (tzOffset : Int) (f : TaskForm)
    (h : FormReachable tzOffset f) :
    initialForm.priority = "medium" ∧
    (∀ t : Task, t.priority = none →
      (populateForEdit tzOffset t).priority = "medium") ∧
    priorityOptions = ["low", "medium", "high"] ∧
    f.priority ≠ "" ∧
    (∀ draft : SubmittedDraft, handleSubmit tzOffset f = some draft →
      draft.priority = some f.priority ∧ draft.priority ≠ none) := by
  have hp := h.priority_ne_empty
  refine ⟨rfl, ?_, rfl, hp, ?_⟩
  · intro t ht
    simp [populateForEdit, jsOr, ht]
  · intro draft hd
    unfold handleSubmit at hd
    by_cases hT : jsTrim f.title = ""
    · simp [hT] at hd
    · simp only [hT, if_neg, ite_false] at hd
      injection hd with hd
      subst hd
      simp [hp]

/-- Witness for C10: the reachable state got by selecting "high" from
the initial form. -/
theorem form_priority_always_set_witness :
    FormReachable 0 { initialForm with priority := "high" } ∧
    ({ initialForm with priority := "high" } : TaskForm).priority ≠ "" :=
  have h : FormReachable 0 { initialForm with priority := "high" } :=
    FormReachable.changePriority initialForm "high" (by decide) FormReachable.init
  ⟨h, (form_priority_always_set 0 _ h).2.2.2.1⟩

end TodoApp
